import Mathlib

/-!
Verification development for the photonai-neuro atlas/mask layer
(photonai_neuro/brain_atlas.py).

The Python module is shallowly embedded below.  Voxel volumes are modelled
as flat lists of integer values (the numpy float volumes of the source carry
no arithmetic that the verified claims depend on beyond comparisons,
equality tests and selection, all of which are value-type agnostic).
Affines, shapes and orientation codes are modelled as opaque strings: the
source only ever stringifies affines and shapes for cache keys and compares
orientation-code strings for equality.  External collaborators from nilearn,
nibabel, numpy and pandas (image loading, resampling, label-file parsing,
maskers) are modelled as components of an abstract Backend record, mirroring
the VolumeBackend contract of the specification.
-/

namespace PhotonaiNeuro

/-! ## Generic helpers: Python dicts as association lists, numpy sorting -/

/-- Python dict assignment d[k] = v: overwrite the binding in place when the
key is present, append it otherwise (dicts preserve insertion order). -/
def dictInsert {α β : Type} [BEq α] (d : List (α × β)) (k : α) (v : β) : List (α × β) :=
  if d.any (fun p => p.1 == k) then d.map (fun p => if p.1 == k then (k, v) else p)
  else d ++ [(k, v)]

/-- Python dict lookup d[k] (first binding for the key, as produced by
dictInsert). -/
def dictLookup {α β : Type} [BEq α] : List (α × β) → α → Option β
  | [], _ => none
  | p :: ps, k => if p.1 == k then some p.2 else dictLookup ps k

/-- Building a dict from a list of pairs, later pairs overwriting earlier
ones (pandas Series.to_dict on a possibly duplicated index). -/
def dictOfPairs {α β : Type} [BEq α] (pairs : List (α × β)) : List (α × β) :=
  pairs.foldl (fun d p => dictInsert d p.1 p.2) []

/-- Insert x into an ascending duplicate-free list, keeping it ascending and
duplicate free. -/
def insertUnique (x : Int) : List Int → List Int
  | [] => [x]
  | y :: ys => if x < y then x :: y :: ys else if x = y then y :: ys else y :: insertUnique x ys

/-- numpy.unique: the ascending list of distinct values of a list. -/
def npUnique (l : List Int) : List Int := l.foldr insertUnique []

/-- Insert x into an ascending list (duplicates kept). -/
def insertSorted (x : Int) : List Int → List Int
  | [] => [x]
  | y :: ys => if x ≤ y then x :: y :: ys else y :: insertSorted x ys

/-- Python sorted() on a list of integers. -/
def sortInt (l : List Int) : List Int := l.foldr insertSorted []

/-! ## Data model (photonai_neuro.objects is not among the sources)

Modelled from the spec: the record types below follow section 3 of the
specification (AtlasObject / MaskObject / RoiObject) and the way
brain_atlas.py populates their fields; the objects module itself is not part
of the source tree. -/

/-- A nifti image: flat voxel data plus its affine (modelled as the opaque
orientation-bearing string the source only compares and stringifies). -/
structure Image where
  data : List Int
  affine : String
deriving Repr, DecidableEq

/-- Modelled from the spec: RoiObject of photonai_neuro.objects.  One
labeled region: integer index, string label, voxel count, the boolean mask
built during atlas construction (none until built, and left none for
size-zero regions), and the is_empty flag. -/
structure RoiObject where
  index : Int
  label : String
  size : Nat := 0
  mask : Option (List Bool) := none
  is_empty : Bool := false
deriving Repr, DecidableEq

/-- Modelled from the spec: AtlasObject of photonai_neuro.objects, with the
fields brain_atlas.py populates: identity and file paths, the resampling
parameters it was built with, the resampled image, its voxel map, the
distinct indices and the ROI list. -/
structure AtlasObject where
  name : String
  path : String
  labels_file : String
  mask_threshold : Option Int := none
  affine : Option String := none
  shape : Option String := none
  atlas : Image := ⟨[], ""⟩
  map : List Int := []
  indices : List Int := []
  roi_list : List RoiObject := []
deriving Repr, DecidableEq

/-- Modelled from the spec: MaskObject of photonai_neuro.objects: name,
source file, the thresholded (boolean, here 0/1-valued) mask image and the
is_empty flag. -/
structure MaskObject where
  name : String
  mask_file : String
  mask : Image := ⟨[], ""⟩
  is_empty : Bool := false
deriving Repr, DecidableEq

/-- An entry of the process wide AtlasLibrary.LIBRARY dict. -/
inductive LibEntry where
  | atlas (a : AtlasObject)
  | mask (m : MaskObject)
deriving Repr, DecidableEq

/-- A LIBRARY key.  The source keys the dict by Python tuples: get_atlas and
both store operations use 4-tuples (name, str(affine), str(shape),
str(threshold)) while the membership probe of get_mask uses a 3-tuple
(name, str(affine), str(shape)).  Tuples of different arity are never equal
in Python, which the two constructors reproduce. -/
inductive LibKey where
  | k3 (name affine shape : String)
  | k4 (name affine shape threshold : String)
deriving Repr, DecidableEq

/-- The process wide library state.  builds counts completed
_add_atlas_to_library / _add_mask_to_library executions (ghost
instrumentation used to express when a rebuild happened; it has no effect on
any embedded computation). -/
structure LibState where
  library : List (LibKey × LibEntry) := []
  builds : Nat := 0
deriving Repr, DecidableEq

/-- Python str(None) for an absent affine or shape, the stringified value
otherwise (affines and shapes are modelled by their stringified form). -/
def strOpt : Option String → String
  | none => "None"
  | some s => s

/-- Python str() of an optional integer threshold. -/
def strOptInt : Option Int → String
  | none => "None"
  | some t => toString t

/-! ## Input data: NiftiConverter and voxel series

Modelled from the spec: NiftiConverter.transform lives in
photonai_neuro.objects, which is not among the sources.  Per the spec it
normalizes the input into a homogeneous in-memory volume collection with a
known subject count, or fails with a ValueError on unusable input.  The
normalized collection is a voxel series: a 3-D array for a single volume or
a 4-D array (modelled subject major) for a batch, together with the affine
and shape shared by the volumes. -/

/-- The voxel array of a converted input: a single 3-D volume or a 4-D
batch (subject-major rows). -/
inductive SeriesArr where
  | three (vol : List Int)
  | four (vols : List (List Int))
deriving Repr, DecidableEq

/-- A converted input series with its affine and shape. -/
structure Series where
  arr : SeriesArr
  affine : String
  shape : String
deriving Repr, DecidableEq

/-- Raw input to the transformers as NiftiConverter sees it: either data it
can normalize (with the subject count it reports) or input it rejects. -/
inductive NiftiInput where
  | valid (s : Series) (n : Nat)
  | invalid (msg : String)
deriving Repr, DecidableEq

/-- Modelled from the spec: NiftiConverter.transform (photonai_neuro.objects
is not among the sources): yields the normalized series and subject count,
or raises for unusable input. -/
def NiftiConverter_transform : NiftiInput → Except String (Series × Nat)
  | .valid s n => .ok (s, n)
  | .invalid msg => .error msg

/-- BrainMask.get_format_info_from_first_image: converts the input and reads
the affine and (first three dimensions of the) shape of the first volume. -/
def get_format_info_from_first_image (X : NiftiInput) : Except String (String × String) :=
  match NiftiConverter_transform X with
  | .error e => .error e
  | .ok (s, _) => .ok (s.affine, s.shape)

/-! ## The external backend

The nilearn / nibabel / pandas collaborators used by AtlasLibrary and the
transformers, kept abstract: theorems quantify over any backend, witnesses
instantiate small concrete ones. -/

/-- Source location of a built-in or custom atlas: the image file and its
sidecar labels file. -/
structure AtlasSource where
  path : String
  labels_file : String
deriving Repr, DecidableEq

/-- The external collaborators of brain_atlas.py. -/
structure Backend where
  /-- the photon_atlases table built from ATLAS_DICTIONARY -/
  photon_atlases : String → Option AtlasSource
  /-- the photon_masks table built from MASK_DICTIONARY (name to mask_file) -/
  photon_masks : String → Option String
  /-- os.path.isfile -/
  isfile : String → Bool
  /-- nilearn image.load_img (loading is assumed to succeed on paths the
  resolution step accepted) -/
  load_img : String → Image
  /-- nilearn image.resample_img with nearest-neighbour interpolation:
  (image, target affine, target shape) to the resampled image -/
  resample_img : Image → String → String → Image
  /-- nibabel aff2axcodes joined to a string -/
  axcodes : String → String
  /-- pandas read_table of a two column labels file: (index, label) rows -/
  read_labels : String → List (Int × String)
  /-- os.path.split(p)[0] for deriving a custom atlas labels path -/
  dirOf : String → String
  /-- NiftiMasker(mask).fit_transform(X): the per-subject by per-voxel
  matrix, or none when the nilearn call raises (caught by the source) -/
  masker_fit_transform : Image → String → String → NiftiInput → Option (List (List Int))
  /-- BrainMask._get_box applied to the input volumes and a mask image -/
  get_box : NiftiInput → Image → List (List Int)
  /-- NiftiMasker.inverse_transform -/
  masker_inverse : List (List Int) → Image

/-! ## AtlasLibrary -/

/-- The ValueError message of the orientation cross-check in
AtlasLibrary._resample. -/
def orientation_mismatch_msg (orient_roi orient_data : String) : String :=
  "Orientation of mask and data are not the same: " ++ orient_roi ++
  " (mask) vs. " ++ orient_data ++ " (data)"

/-- AtlasLibrary._resample: when both a target affine and a target shape are
given, resample with nearest-neighbour interpolation and then compare the
orientation codes of the resampled image with those of the target affine,
raising a ValueError on mismatch; otherwise return the image unchanged. -/
def lib_resample (B : Backend) (img : Image) (ta ts : Option String) : Except String Image :=
  match ta, ts with
  | some a, some s =>
    let m := B.resample_img img a s
    if B.axcodes m.affine = B.axcodes a then .ok m
    else .error (orientation_mismatch_msg (B.axcodes m.affine) (B.axcodes a))
  | _, _ => .ok img

/-- Resolution step of _add_atlas_to_library: a built-in name from the
photon_atlases table, else a custom path checked by _check_custom_atlas
(FileNotFoundError when absent; the labels file is derived from the path and
merely warned about when missing). -/
def resolve_atlas_source (B : Backend) (atlas_name : String) : Except String AtlasSource :=
  match B.photon_atlases atlas_name with
  | some src => .ok src
  | none =>
    if B.isfile atlas_name then .ok ⟨atlas_name, B.dirOf atlas_name ++ "_labels.txt"⟩
    else .error ("Cannot find custom atlas " ++ atlas_name)

/-- Resolution step of _add_mask_to_library: a built-in name from the
photon_masks table, else a custom path checked by _check_custom_mask. -/
def resolve_mask_file (B : Backend) (mask_name : String) : Except String String :=
  match B.photon_masks mask_name with
  | some f => .ok f
  | none =>
    if B.isfile mask_name then .ok mask_name
    else .error ("Cannot find custom mask " ++ mask_name)

/-- nilearn image.math_img with the formula img > threshold: the voxelwise
boolean (0/1) image, keeping the affine. -/
def mathImgGt (img : Image) (t : Int) : Image :=
  ⟨img.data.map (fun v => if v > t then 1 else 0), img.affine⟩

/-- The mask pipeline of _add_mask_to_library before the empty check:
load, threshold via math_img, and resample when both targets are given. -/
def build_mask_img (B : Backend) (mask_file : String) (ta ts : Option String) (mt : Int) :
    Except String Image :=
  let thr := mathImgGt (B.load_img mask_file) mt
  if ta.isSome && ts.isSome then lib_resample B thr ta ts else .ok thr

/-- The message raised in the labels-mismatch branch of
_add_atlas_to_library.  The source intends to log the discrepancy and fall
back to stringified labels, but the log message is built from
str(sorted(self.indices)) where self is the AtlasLibrary instance, which
has no attribute named indices: evaluating the message therefore raises
AttributeError before either the log or the fallback happens. -/
def attribute_error_msg : String :=
  "AttributeError: AtlasLibrary object has no attribute indices"

/-- The body of _add_atlas_to_library between resampling and the per-ROI
mask pass: thresholding of the map, the distinct-index list, label
reconciliation against the sidecar file (when labelsData is some) and the
construction of the ROI list. -/
def build_atlas_object (name : String) (src : AtlasSource) (resampled : Image)
    (ta ts : Option String) (mt : Option Int) (labelsData : Option (List (Int × String))) :
    Except String AtlasObject :=
  let map : List Int :=
    match mt with
    | some t => (resampled.data.map (fun v => if v < t then 0 else v))
    | none => resampled.data
  let indices := npUnique map
  let base : AtlasObject :=
    { name := name, path := src.path, labels_file := src.labels_file,
      mask_threshold := mt, affine := ta, shape := ts,
      atlas := resampled, map := map, indices := indices, roi_list := [] }
  match labelsData with
  | none =>
    let rl : List RoiObject :=
      indices.map (fun i => { index := i, label := toString i, size := map.count i })
    .ok { base with roi_list := rl }
  | some pairs =>
    let d0 := dictOfPairs pairs
    let d := if !(dictLookup d0 0).isSome && indices.contains 0
             then dictInsert d0 0 "Background" else d0
    if sortInt indices = sortInt (d.map (fun p => p.1)) then
      let rl : List RoiObject :=
        indices.map (fun i =>
          { index := i, label := ((dictLookup d i).getD "").replace "\n" "",
            size := map.count i })
      .ok { base with roi_list := rl }
    else
      .error attribute_error_msg

/-- The per-ROI pass at the end of _add_atlas_to_library: size-zero ROIs are
skipped (their mask stays none); every other ROI gets the boolean mask
map == index, and is flagged is_empty when that mask has no positive voxel. -/
def finalize_rois (map : List Int) (ros : List RoiObject) : List RoiObject :=
  ros.map (fun roi =>
    if roi.size = 0 then roi
    else
      let m := map.map (fun v => v == roi.index)
      if m.count true = 0 then { roi with mask := some m, is_empty := true }
      else { roi with mask := some m })

/-- AtlasLibrary._add_atlas_to_library: resolve, load, resample (with the
orientation check), build the atlas object with label reconciliation,
finalize the ROI masks and store the object under the 4-tuple key,
counting the completed build. -/
def add_atlas_to_library (B : Backend) (st : LibState) (atlas_name : String)
    (ta ts : Option String) (mt : Option Int) : Except String LibState :=
  match resolve_atlas_source B atlas_name with
  | .error e => .error e
  | .ok src =>
    match lib_resample B (B.load_img src.path) ta ts with
    | .error e => .error e
    | .ok resampled =>
      let labelsData := if B.isfile src.labels_file then some (B.read_labels src.labels_file)
                        else none
      match build_atlas_object atlas_name src resampled ta ts mt labelsData with
      | .error e => .error e
      | .ok obj0 =>
        let obj := { obj0 with roi_list := finalize_rois obj0.map obj0.roi_list }
        .ok { library := dictInsert st.library
                (LibKey.k4 atlas_name (strOpt ta) (strOpt ts) (strOptInt mt)) (.atlas obj),
              builds := st.builds + 1 }

/-- AtlasLibrary._add_mask_to_library: resolve, threshold, resample, raise a
ValueError naming the mask when no voxel survives (before anything is
stored), otherwise store the MaskObject under the 4-tuple key. -/
def add_mask_to_library (B : Backend) (st : LibState) (mask_name : String)
    (ta ts : Option String) (mt : Int) : Except String LibState :=
  match resolve_mask_file B mask_name with
  | .error e => .error e
  | .ok mask_file =>
    match build_mask_img B mask_file ta ts mt with
    | .error e => .error e
    | .ok m =>
      if m.data.all (fun v => v == 0) then
        .error ("No voxels in mask after resampling (" ++ mask_name ++ ").")
      else
        .ok { library := dictInsert st.library
                (LibKey.k4 mask_name (strOpt ta) (strOpt ts) (toString mt)) (.mask ⟨mask_name, mask_file, m, false⟩),
              builds := st.builds + 1 }

/-- AtlasLibrary.get_atlas: probe the library under the 4-tuple key, build
and store on a miss, and return the entry stored under that key.  Errors
leave the library exactly as it was when they were raised. -/
def get_atlas (B : Backend) (st : LibState) (atlas_name : String)
    (ta ts : Option String) (mt : Option Int) : Except String LibEntry × LibState :=
  let key := LibKey.k4 atlas_name (strOpt ta) (strOpt ts) (strOptInt mt)
  match dictLookup st.library key with
  | some e => (.ok e, st)
  | none =>
    match add_atlas_to_library B st atlas_name ta ts mt with
    | .error e => (.error e, st)
    | .ok st1 =>
      match dictLookup st1.library key with
      | some e => (.ok e, st1)
      | none => (.error "KeyError", st1)

/-- AtlasLibrary.get_mask.  Faithful to the source: the membership probe
uses the 3-tuple (name, str(affine), str(shape)) while entries are stored
and returned under 4-tuples that also carry str(threshold). -/
def get_mask (B : Backend) (st : LibState) (mask_name : String)
    (ta ts : Option String) (mt : Int) : Except String LibEntry × LibState :=
  let probe := LibKey.k3 mask_name (strOpt ta) (strOpt ts)
  let key := LibKey.k4 mask_name (strOpt ta) (strOpt ts) (toString mt)
  match dictLookup st.library probe with
  | some _ =>
    (match dictLookup st.library key with
     | some e => (.ok e, st)
     | none => (.error "KeyError", st))
  | none =>
    match add_mask_to_library B st mask_name ta ts mt with
    | .error e => (.error e, st)
    | .ok st1 =>
      match dictLookup st1.library key with
      | some e => (.ok e, st1)
      | none => (.error "KeyError", st1)

/-- AtlasLibrary.find_rois_by_label: the ROIs of the atlas whose label lies
in the query list, in roi_list order. -/
def find_rois_by_label (atlas_obj : AtlasObject) (query_list : List String) : List RoiObject :=
  atlas_obj.roi_list.filter (fun i => query_list.contains i.label)

/-- AtlasLibrary.find_rois_by_index: the ROIs of the atlas whose index lies
in the query list, in roi_list order. -/
def find_rois_by_index (atlas_obj : AtlasObject) (query_list : List Int) : List RoiObject :=
  atlas_obj.roi_list.filter (fun i => query_list.contains i.index)

/-! ## BrainAtlas -/

/-- The polymorphic rois parameter of BrainAtlas (Union[list, str] plus the
int case _get_rois dispatches on).  The source distinguishes a string list
from an int list by inspecting the first element; the constructors record
that tag (a Python list must be nonempty for the dispatch to succeed, which
theorems about list requests assume as a hypothesis). -/
inductive RoisSpec where
  | str (s : String)
  | int (i : Int)
  | strList (l : List String)
  | intList (l : List Int)
deriving Repr, DecidableEq

/-- Python str.lower(), character by character. -/
def pyLower (s : String) : String := ⟨s.data.map Char.toLower⟩

/-- BrainAtlas._get_rois: the ROI selection policy.  In the string-list
branch the source reads which_rois[0].lower(); for an empty Python list
that raises IndexError, here headD "" stands in (claims about list requests
carry nonemptiness hypotheses). -/
def get_rois (atlas_obj : AtlasObject) (which_rois : RoisSpec) (background_id : Int) :
    List RoiObject :=
  match which_rois with
  | .str s =>
    if s = "all" then atlas_obj.roi_list.filter (fun roi => !(roi.index == background_id))
    else find_rois_by_label atlas_obj [s]
  | .int i => find_rois_by_index atlas_obj [i]
  | .strList l =>
    if pyLower (l.headD "") = "all" then
      atlas_obj.roi_list.filter (fun roi => !(roi.index == background_id))
    else find_rois_by_label atlas_obj l
  | .intList l => find_rois_by_index atlas_obj l

/-- The roi_allocation updates performed by the extraction loop of
BrainAtlas.transform: for i, roi in enumerate(roi_objects) the dict gets
roi_allocation[roi.label] = i. -/
def roi_allocation_loop : List (String × Nat) → Nat → List RoiObject → List (String × Nat)
  | d, _, [] => d
  | d, i, roi :: rest => roi_allocation_loop (dictInsert d roi.label i) (i + 1) rest

/-- numpy fancy selection series[mask] on a single 3-D volume (C order),
followed by the no-op transpose of a 1-D array: the voxels under the mask. -/
def apply_mask_vol (vol : List Int) (mask : List Bool) : List Int :=
  ((vol.zip mask).filter (fun p => p.2)).map (fun p => p.1)

/-- The value BrainAtlas.apply_mask returns for one ROI: a 1-D voxel vector
for a 3-D series, a subjects-by-voxels matrix (series[mask].T) for a 4-D
series. -/
inductive Extraction where
  | vec (v : List Int)
  | mat (rows : List (List Int))
deriving Repr, DecidableEq

/-- BrainAtlas.apply_mask on the converted series. -/
def roi_extract (s : SeriesArr) (mask : List Bool) : Extraction :=
  match s with
  | .three vol => .vec (apply_mask_vol vol mask)
  | .four vols => .mat (vols.map (fun v => apply_mask_vol v mask))

/-- numpy np.ones(extraction[0].size): extraction[0] of a 1-D extraction is
a scalar of size one, of a 2-D extraction its first row; an empty extraction
raises IndexError. -/
def ext_first_size : Extraction → Except String Nat
  | .vec [] => .error "IndexError: index 0 is out of bounds"
  | .vec (_ :: _) => .ok 1
  | .mat [] => .error "IndexError: index 0 is out of bounds"
  | .mat (r :: _) => .ok r.length

/-- The value transform leaves in self.mask_indices.  In concat mode with
more than one subject it is the concatenated numpy vector; with a single
subject the source skips the concatenation and stores the raw Python list
of per-ROI arrays; in list mode it stores the plain list of ROI positions.
The three constructors keep those Python types apart, since
inverse_transform compares self.mask_indices == i, which is an elementwise
numpy comparison only for the numpy vector and the constant False for
either Python list. -/
inductive MaskIndicesV where
  | arr (v : List Int)
  | pylistArrs (ls : List (List Int))
  | pylistInts (ls : List Nat)
deriving Repr, DecidableEq

/-- Accumulator of the concat-mode extraction loop: the roi_allocation
dict, roi_data_concat and the per-ROI mask-index arrays. -/
structure ConcatAcc where
  alloc : List (String × Nat)
  data : List Extraction
  entries : List (List Int)
deriving Repr, DecidableEq

/-- The extraction loop of BrainAtlas.transform in concat mode: per ROI,
record roi_allocation[label] = i, extract, append the extraction and the
index array np.ones(extraction[0].size) * i.  A ROI whose mask was never
built (size-zero ROI) makes the nilearn masking call fail on None. -/
def concat_loop (s : SeriesArr) : List RoiObject → Nat → ConcatAcc → Except String ConcatAcc
  | [], _, acc => .ok acc
  | roi :: rest, i, acc =>
    match roi.mask with
    | none => .error "TypeError: mask image is None"
    | some m =>
      let ext := roi_extract s m
      match ext_first_size ext with
      | .error e => .error e
      | .ok sz =>
        concat_loop s rest (i + 1)
          ⟨dictInsert acc.alloc roi.label i, acc.data ++ [ext],
           acc.entries ++ [List.replicate sz (Int.ofNat i)]⟩

/-- One cell of the list-mode per-subject output: extraction[sub_i] is a
scalar for a 1-D extraction and a voxel vector for a 2-D one. -/
inductive Cell where
  | scalar (x : Int)
  | vect (v : List Int)
deriving Repr, DecidableEq

/-- The items extraction[0], extraction[1], ... of one extraction. -/
def ext_items : Extraction → List Cell
  | .vec v => v.map .scalar
  | .mat rows => rows.map .vect

/-- List-mode body roi_data[sub_i].append(extraction[sub_i]) for sub_i in
range(extraction.shape[0]): appends item j to subject row j, raising
IndexError when the extraction has more items than there are subject rows. -/
def append_to_subjects (rd : List (List Cell)) (items : List Cell) :
    Except String (List (List Cell)) :=
  if items.length > rd.length then .error "IndexError: list index out of range"
  else .ok ((rd.zip (items.map some ++ List.replicate (rd.length - items.length) none)).map
    (fun p => match p.2 with
              | some c => p.1 ++ [c]
              | none => p.1))

/-- Accumulator of the list-mode extraction loop. -/
structure ListAcc where
  alloc : List (String × Nat)
  rd : List (List Cell)
  idxs : List Nat
deriving Repr, DecidableEq

/-- The extraction loop of BrainAtlas.transform in list mode. -/
def list_loop (s : SeriesArr) : List RoiObject → Nat → ListAcc → Except String ListAcc
  | [], _, acc => .ok acc
  | roi :: rest, i, acc =>
    match roi.mask with
    | none => .error "TypeError: mask image is None"
    | some m =>
      let ext := roi_extract s m
      match append_to_subjects acc.rd (ext_items ext) with
      | .error e => .error e
      | .ok rd1 =>
        list_loop s rest (i + 1) ⟨dictInsert acc.alloc roi.label i, rd1, acc.idxs ++ [i]⟩

/-- np.concatenate(roi_data_concat, axis=1): requires 2-D extractions with
a common number of subject rows and joins them along the feature axis. -/
def concat_axis1 (xs : List Extraction) : Except String (List (List Int)) :=
  match xs with
  | [] => .error "ValueError: need at least one array to concatenate"
  | x :: _ =>
    match x with
    | .vec _ => .error "numpy AxisError: axis 1 is out of bounds"
    | .mat r0 =>
      let mats := xs.map (fun e => match e with | .vec v => [v] | .mat rows => rows)
      if mats.all (fun rows => rows.length == r0.length) && (xs.all (fun e => match e with | .vec _ => false | .mat _ => true)) then
        .ok ((List.range r0.length).map (fun j => (mats.map (fun rows => rows.getD j [])).flatten))
      else .error "ValueError: array dimensions do not match"

/-- The value BrainAtlas.transform returns: the per-subject concatenated
matrix (several subjects, concat mode), np.array(roi_data_concat) (one
subject, concat mode: the stacked per-ROI extractions) or the nested
per-subject lists (list mode). -/
inductive TransformOut where
  | concatMany (rows : List (List Int))
  | concatOne (xs : List Extraction)
  | listOut (rd : List (List Cell))
deriving Repr, DecidableEq

/-- The mutable attributes of a BrainAtlas instance that transform and
inverse_transform read and write. -/
structure BrainAtlasSelf where
  atlas_name : String
  extract_mode : String := "vec"
  collection_mode : String := "concat"
  mask_threshold : Option Int := none
  background_id : Int := 0
  rois : RoisSpec := .str "all"
  mask_indices : Option MaskIndicesV := none
  affine : Option String := none
  shape : Option String := none
  roi_allocation : List (String × Nat) := []
deriving Repr, DecidableEq

/-- The message raised for an unsupported collection mode.  In the source
the format call is applied to the second string literal, which holds no
placeholder, so the braces of the first literal survive unformatted; the
quotes of the original are elided here. -/
def collection_mode_msg : String :=
  "Collection mode \x7b\x7d not supported. Use list or concat instead.Falling back to concat mode."

/-- Decidable equality for raised-or-returned results. -/
instance {ε α : Type} [DecidableEq ε] [DecidableEq α] : DecidableEq (Except ε α) := fun x y =>
  match x, y with
  | .ok a, .ok b => if h : a = b then .isTrue (by rw [h]) else .isFalse (by simp [h])
  | .error a, .error b => if h : a = b then .isTrue (by rw [h]) else .isFalse (by simp [h])
  | .ok _, .error _ => .isFalse (by simp)
  | .error _, .ok _ => .isFalse (by simp)

/-- The result of one BrainAtlas.transform call: returned value or raised
error, the library state and the instance attributes afterwards. -/
structure BAStep where
  res : Except String TransformOut
  lib : LibState
  self : BrainAtlasSelf
deriving Repr, DecidableEq

/-- BrainAtlas.transform: convert the input, validate collection_mode (a
ValueError before anything else happens), derive affine and shape from the
first volume, resolve the atlas through the library, select the ROIs, run
the extraction loop and assemble the output.  With several subjects in
concat mode the mask-index arrays are concatenated into one numpy vector;
with a single subject the raw Python list of arrays is stored instead. -/
def BrainAtlas_transform (B : Backend) (st : LibState) (self : BrainAtlasSelf)
    (X : NiftiInput) : BAStep :=
  match NiftiConverter_transform X with
  | .error e => ⟨.error e, st, self⟩
  | .ok (series, n_subjects) =>
    if self.collection_mode = "list" ∨ self.collection_mode = "concat" then
      match get_format_info_from_first_image X with
      | .error e => ⟨.error e, st, self⟩
      | .ok (aff, shp) =>
        let self1 := { self with affine := some aff, shape := some shp }
        match get_atlas B st self.atlas_name (some aff) (some shp) self.mask_threshold with
        | (.error e, st1) => ⟨.error e, st1, self1⟩
        | (.ok (.mask _), st1) => ⟨.error "AttributeError: MaskObject has no attribute roi_list", st1, self1⟩
        | (.ok (.atlas atlas_obj), st1) =>
          let roi_objects := get_rois atlas_obj self.rois self.background_id
          if self.collection_mode = "list" then
            match list_loop series.arr roi_objects 0 ⟨self1.roi_allocation, List.replicate n_subjects [], []⟩ with
            | .error e => ⟨.error e, st1, self1⟩
            | .ok acc =>
              ⟨.ok (.listOut acc.rd), st1,
               { self1 with roi_allocation := acc.alloc, mask_indices := some (.pylistInts acc.idxs) }⟩
          else
            match concat_loop series.arr roi_objects 0 ⟨self1.roi_allocation, [], []⟩ with
            | .error e => ⟨.error e, st1, self1⟩
            | .ok acc =>
              if n_subjects > 1 then
                match concat_axis1 acc.data with
                | .error e => ⟨.error e, st1, { self1 with roi_allocation := acc.alloc }⟩
                | .ok rows =>
                  ⟨.ok (.concatMany rows), st1,
                   { self1 with roi_allocation := acc.alloc, mask_indices := some (.arr acc.entries.flatten) }⟩
              else
                ⟨.ok (.concatOne acc.data), st1,
                 { self1 with roi_allocation := acc.alloc, mask_indices := some (.pylistArrs acc.entries) }⟩
    else
      ⟨.error collection_mode_msg, st, self⟩

/-- The data handed to inverse_transform after np.asarray: a 1-D feature
row or a 2-D array. -/
inductive InvX where
  | vec (v : List Int)
  | mat (m : List (List Int))
deriving Repr, DecidableEq

/-- numpy fancy assignment unmasked[mask] = vals on a flat volume: vals
must supply one value per selected voxel, or a single value broadcast over
all of them; any other length fails to broadcast. -/
def scatter : List Int → List Bool → List Int → List Int
  | [], _, _ => []
  | us, [], _ => us
  | u :: us, b :: ms, vs =>
    if b then (vs.headD u) :: scatter us ms (vs.drop 1)
    else u :: scatter us ms vs

/-- numpy unmasked[mask] = vals with the broadcast rule. -/
def scatterAssign (unmasked : List Int) (mask : List Bool) (vals : List Int) :
    Except String (List Int) :=
  if vals.length = mask.count true then .ok (scatter unmasked mask vals)
  else if vals.length = 1 then
    .ok (scatter unmasked mask (List.replicate (mask.count true) (vals.headD 0)))
  else .error "could not broadcast input array"

/-- X[self.mask_indices == i] when self.mask_indices is the concatenated
numpy vector: the elementwise boolean selection (an IndexError when the
boolean mask length does not fit X, a failed broadcast downstream when X is
2-D). -/
def invX_select_arr (X : InvX) (v : List Int) (i : Nat) : Except String (List Int) :=
  match X with
  | .vec x =>
    if x.length = v.length then
      .ok (((x.zip v).filter (fun p => p.2 == Int.ofNat i)).map (fun p => p.1))
    else .error "IndexError: boolean index did not match indexed array"
  | .mat _ => .error "could not broadcast input array"

/-- X[i] in the list-mode branch of inverse_transform. -/
def invX_item (X : InvX) (i : Nat) : Except String (List Int) :=
  match X with
  | .vec x =>
    match x.get? i with
    | some a => .ok [a]
    | none => .error "IndexError: index out of bounds"
  | .mat m =>
    match m.get? i with
    | some r => .ok r
    | none => .error "IndexError: index out of bounds"

/-- One iteration of the inverse_transform loop for ROI i.  In concat mode
the source evaluates X[self.mask_indices == i]; when self.mask_indices is a
Python list (single-subject transform) or still None, the comparison with
the integer i is the constant False, X[False] is an empty slice of higher
rank, and assigning it into the nonscalar voxel selection raises a numpy
broadcast ValueError. -/
def inverse_step (mode : String) (X : InvX) (mi : Option MaskIndicesV) (i : Nat)
    (roi : RoiObject) (unmasked : List Int) : Except String (List Int) :=
  match roi.mask with
  | none => .error "TypeError: mask image is None"
  | some m =>
    if mode = "list" then
      match invX_item X i with
      | .error e => .error e
      | .ok vals => scatterAssign unmasked m vals
    else
      match mi with
      | some (.arr v) =>
        match invX_select_arr X v i with
        | .error e => .error e
        | .ok vals => scatterAssign unmasked m vals
      | some (.pylistArrs _) => .error "could not broadcast input array"
      | some (.pylistInts _) => .error "could not broadcast input array"
      | none => .error "could not broadcast input array"

/-- The ROI loop of inverse_transform. -/
def inverse_loop (mode : String) (X : InvX) (mi : Option MaskIndicesV) :
    List RoiObject → Nat → List Int → Except String (List Int)
  | [], _, unmasked => .ok unmasked
  | roi :: rest, i, unmasked =>
    match inverse_step mode X mi i roi unmasked with
    | .error e => .error e
    | .ok u1 => inverse_loop mode X mi rest (i + 1) u1

/-- BrainAtlas.inverse_transform: resolve the atlas again for the stored
affine, shape and threshold, reselect the ROIs, scatter the data back into
a zero volume shaped like the atlas map and wrap it with the atlas
geometry. -/
def BrainAtlas_inverse_transform (B : Backend) (st : LibState) (self : BrainAtlasSelf)
    (X : InvX) : Except String Image × LibState :=
  match get_atlas B st self.atlas_name self.affine self.shape self.mask_threshold with
  | (.error e, st1) => (.error e, st1)
  | (.ok (.mask _), st1) => (.error "AttributeError: MaskObject has no attribute map", st1)
  | (.ok (.atlas atlas_obj), st1) =>
    let roi_objects := get_rois atlas_obj self.rois self.background_id
    let unmasked0 := atlas_obj.map.map (fun _ => (0 : Int))
    match inverse_loop self.collection_mode X self.mask_indices roi_objects 0 unmasked0 with
    | .error e => (.error e, st1)
    | .ok unmasked => (.ok ⟨unmasked, atlas_obj.atlas.affine⟩, st1)

/-! ## BrainMask -/

/-- The mask_image attribute of BrainMask: the constructor takes a name
string; transform overwrites it with whatever library entry get_mask
returned (a MaskObject in every reachable state, but the source stores the
entry unconditionally); a RoiObject may also be passed in directly, which
transform leaves untouched. -/
inductive MaskImageField where
  | name (s : String)
  | resolvedM (m : MaskObject)
  | resolvedR (r : RoiObject)
  | resolvedA (a : AtlasObject)
deriving Repr, DecidableEq

/-- The attributes of a BrainMask instance. -/
structure BrainMaskSelf where
  mask_image : MaskImageField := .name "MNI_ICBM152_WholeBrain"
  affine : Option String := none
  shape : Option String := none
  masker : Option (Image × String × String) := none
  extract_mode : String := "vec"
  mask_threshold : Int := 1
deriving Repr, DecidableEq

/-- What BrainMask.transform returns, by extraction mode. -/
inductive BrainMaskOut where
  | vec (rows : List (List Int))
  | mean (v : List Int)
  | box (b : List (List Int))
  | img (i : Image)
deriving Repr, DecidableEq

/-- The first step of BrainMask.transform: when affine or shape is unset,
infer both from the first input volume and store them on the instance. -/
def bm_format (self : BrainMaskSelf) (X : NiftiInput) : Except String BrainMaskSelf :=
  if self.affine = none ∨ self.shape = none then
    match get_format_info_from_first_image X with
    | .error e => .error e
    | .ok (a, s) => .ok { self with affine := some a, shape := some s }
  else .ok self

/-- The resolution step of BrainMask.transform: a string mask_image is
replaced by the library entry returned by get_mask (which may mutate the
library); a RoiObject passes through, and a previously resolved object hits
neither isinstance branch and is reused as it is. -/
def bm_resolve (B : Backend) (st : LibState) (self : BrainMaskSelf) :
    (Except String BrainMaskSelf) × LibState :=
  match self.mask_image with
  | .name s =>
    match get_mask B st s self.affine self.shape self.mask_threshold with
    | (.error e, st1) => (.error e, st1)
    | (.ok (.mask m), st1) => (.ok { self with mask_image := .resolvedM m }, st1)
    | (.ok (.atlas a), st1) => (.ok { self with mask_image := .resolvedA a }, st1)
  | _ => (.ok self, st)

/-- self.mask_image.is_empty: defined for resolved mask and ROI objects,
an AttributeError on anything else. -/
def mask_image_is_empty : MaskImageField → Except String Bool
  | .resolvedM m => .ok m.is_empty
  | .resolvedR r => .ok r.is_empty
  | .resolvedA _ => .error "AttributeError: AtlasObject has no attribute is_empty"
  | .name _ => .error "AttributeError: str has no attribute is_empty"

/-- The mask volume a resolved mask_image supplies to the NiftiMasker.  A
RoiObject carries a boolean voxel mask built by the atlas pass (rendered as
a 0/1 image without an affine of its own here). -/
def mask_image_img : MaskImageField → Image
  | .resolvedM m => m.mask
  | .resolvedR r => ⟨(r.mask.getD []).map (fun b => if b then 1 else 0), ""⟩
  | .resolvedA a => a.atlas
  | .name _ => ⟨[], ""⟩

/-- The extraction part of BrainMask.transform: fail on an empty mask,
build the NiftiMasker (stored on the instance), run fit_transform (a
backend failure is caught and surfaces as a ValueError), then dispatch on
extract_mode, raising NameError for an unknown mode. -/
def bm_extract (B : Backend) (self : BrainMaskSelf) (X : NiftiInput) :
    (Except String BrainMaskOut) × BrainMaskSelf :=
  match mask_image_is_empty self.mask_image with
  | .error e => (.error e, self)
  | .ok true => (.error "Skipping self.mask_image because it is empty.", self)
  | .ok false =>
    let mk := (mask_image_img self.mask_image, strOpt self.affine, strOpt self.shape)
    let self1 := { self with masker := some mk }
    match B.masker_fit_transform mk.1 mk.2.1 mk.2.2 X with
    | none => (.error "Extracting ROI failed.", self1)
    | some single_roi =>
      if self.extract_mode = "vec" then (.ok (.vec single_roi), self1)
      else if self.extract_mode = "mean" then
        (.ok (.mean (single_roi.map (fun r => r.sum / (Int.ofNat r.length)))), self1)
      else if self.extract_mode = "box" then
        (.ok (.box (B.get_box X (mask_image_img self.mask_image))), self1)
      else if self.extract_mode = "img" then
        (.ok (.img (B.masker_inverse single_roi)), self1)
      else
        (.error "NameError: Currently there are no other methods than vec, mean, img and box supported!", self1)

/-- The result of one BrainMask.transform call: returned value or raised
error, the library state and the instance attributes afterwards. -/
structure BMStep where
  res : Except String BrainMaskOut
  lib : LibState
  self : BrainMaskSelf
deriving Repr, DecidableEq

/-- BrainMask.transform: infer-and-cache affine and shape when missing,
resolve a string mask_image through the library (overwriting the
attribute), then extract.  Attribute writes that happened before a raise
persist, exactly as in the source. -/
def BrainMask_transform (B : Backend) (st : LibState) (self : BrainMaskSelf)
    (X : NiftiInput) : BMStep :=
  match bm_format self X with
  | .error e => ⟨.error e, st, self⟩
  | .ok self1 =>
    match bm_resolve B st self1 with
    | (.error e, st1) => ⟨.error e, st1, self1⟩
    | (.ok self2, st1) =>
      match bm_extract B self2 X with
      | (r, self3) => ⟨r, st1, self3⟩

/-- True exactly when a mask_image attribute holds a resolved MaskObject
(name resolution already happened and will be skipped). -/
def isResolvedMask : MaskImageField → Bool
  | .resolvedM _ => true
  | _ => false

/-! ## Concrete instances used to evaluate the embedding

A neutral backend whose components are updated per scenario. -/

/-- A backend with inert components: no built-in tables, no files, identity
resampling, orientation codes read off the affine string itself. -/
def baseBackend : Backend where
  photon_atlases := fun _ => none
  photon_masks := fun _ => none
  isfile := fun _ => false
  load_img := fun _ => ⟨[], ""⟩
  resample_img := fun img _ _ => img
  axcodes := fun a => a
  read_labels := fun _ => []
  dirOf := fun _ => ""
  masker_fit_transform := fun _ _ _ _ => none
  get_box := fun _ _ => []
  masker_inverse := fun _ => ⟨[], ""⟩

/-- A two-ROI atlas for exercising the ROI selection policy. -/
def atlasC1 : AtlasObject :=
  { name := "atlasC1", path := "p", labels_file := "lf", map := [1, 1, 2, 0],
    indices := [0, 1, 2],
    roi_list := [{ index := 1, label := "A", size := 2, mask := some [true, true, false, false] },
                 { index := 2, label := "B", size := 1, mask := some [false, false, true, false] }] }

/-- Backend with one built-in atlas AT over a four voxel grid (no labels
file, so indices become labels). -/
def B2 : Backend :=
  { baseBackend with
    photon_atlases := fun n => if n = "AT" then some ⟨"AT.nii", "AT_labels.txt"⟩ else none,
    load_img := fun _ => ⟨[1, 1, 2, 0], "aff"⟩ }

/-- A single-subject volume over the same grid. -/
def X2 : NiftiInput := .valid ⟨.three [10, 20, 30, 40], "aff", "shp"⟩ 1

/-- A fresh BrainAtlas instance on atlas AT with the default settings
(extract_mode vec, collection_mode concat, all ROIs). -/
def self2 : BrainAtlasSelf := { atlas_name := "AT" }

/-- The single-subject transform run of the round-trip scenario. -/
def run2 : BAStep := BrainAtlas_transform B2 {} self2 X2

/-- Backend with one built-in mask M. -/
def B3 : Backend :=
  { baseBackend with
    photon_masks := fun n => if n = "M" then some "M.nii" else none,
    load_img := fun _ => ⟨[3], "aff"⟩ }

/-- First get_mask call for mask M. -/
def c3_call1 : Except String LibEntry × LibState := get_mask B3 {} "M" none none 0

/-- Second, identical get_mask call, on the state the first one left. -/
def c3_call2 : Except String LibEntry × LibState := get_mask B3 c3_call1.2 "M" none none 0

/-- Backend with an atlas whose sidecar labels file disagrees with the map:
the map holds indices 0, 1, 2 while the file defines only index 1 (index 0
is injected as Background, leaving 2 uncovered). -/
def B4 : Backend :=
  { baseBackend with
    photon_atlases := fun n => if n = "A" then some ⟨"A.nii", "A_labels.txt"⟩ else none,
    isfile := fun f => f = "A_labels.txt",
    load_img := fun _ => ⟨[0, 1, 2], "aff"⟩,
    read_labels := fun _ => [(1, "X")] }

/-- Backend with a mask whose values never exceed the threshold used in the
empty-mask scenario. -/
def B5 : Backend :=
  { baseBackend with
    photon_masks := fun n => if n = "M5" then some "f5" else none,
    load_img := fun _ => ⟨[1, 2], "aff"⟩ }

/-- A BrainAtlas instance whose collection_mode was overwritten with an
unsupported value. -/
def self6 : BrainAtlasSelf := { atlas_name := "any", collection_mode := "array" }

/-- A convertible input for the collection-mode scenario. -/
def X6 : NiftiInput := .valid ⟨.three [1], "a", "s"⟩ 1

/-- Backend with a three voxel atlas A7 and no labels file. -/
def B7 : Backend :=
  { baseBackend with
    photon_atlases := fun n => if n = "A7" then some ⟨"p7", "lf7"⟩ else none,
    load_img := fun _ => ⟨[2, 1, 1], "aff7"⟩ }

/-- The AtlasObject that adding A7 with no targets builds. -/
def atlas7 : AtlasObject :=
  { name := "A7", path := "p7", labels_file := "lf7", atlas := ⟨[2, 1, 1], "aff7"⟩,
    map := [2, 1, 1], indices := [1, 2],
    roi_list := [{ index := 1, label := "1", size := 2, mask := some [false, true, true] },
                 { index := 2, label := "2", size := 1, mask := some [true, false, false] }] }

/-- The library state after adding A7 to the empty library. -/
def st7 : LibState := ⟨[(LibKey.k4 "A7" "None" "None" "None", .atlas atlas7)], 1⟩

/-- Backend whose only volume sits in LAS orientation (orientation codes
are read off the affine string, resampling keeps the image). -/
def B8 : Backend :=
  { baseBackend with
    photon_atlases := fun n => if n = "A8" then some ⟨"p8", "lf8"⟩ else none,
    photon_masks := fun n => if n = "M8" then some "f8" else none,
    load_img := fun _ => ⟨[1], "LAS"⟩ }

/-- Backend with a one voxel atlas A9. -/
def B9 : Backend :=
  { baseBackend with
    photon_atlases := fun n => if n = "A9" then some ⟨"p9", "lf9"⟩ else none,
    load_img := fun _ => ⟨[1], "aff9"⟩ }

/-- The AtlasObject that adding A9 with no targets builds. -/
def atlas9 : AtlasObject :=
  { name := "A9", path := "p9", labels_file := "lf9", atlas := ⟨[1], "aff9"⟩,
    map := [1], indices := [1],
    roi_list := [{ index := 1, label := "1", size := 1, mask := some [true] }] }

/-- The library state after adding A9 to the empty library. -/
def st9 : LibState := ⟨[(LibKey.k4 "A9" "None" "None" "None", .atlas atlas9)], 1⟩

/-- Backend with one built-in mask M10 and a masker whose extraction
succeeds. -/
def B10 : Backend :=
  { baseBackend with
    photon_masks := fun n => if n = "M10" then some "f10" else none,
    load_img := fun _ => ⟨[3, 1], "aff"⟩,
    masker_fit_transform := fun _ _ _ _ => some [[5]] }

/-- A fresh BrainMask instance created with the mask name M10. -/
def self10 : BrainMaskSelf := { mask_image := .name "M10" }

/-- First input volume of the BrainMask caching scenario. -/
def X10 : NiftiInput := .valid ⟨.three [7, 8], "aff", "shp"⟩ 1

/-- A later input with a different affine and shape. -/
def X10b : NiftiInput := .valid ⟨.three [9], "other_aff", "other_shp"⟩ 1

/-- The MaskObject that resolving M10 against the first input builds. -/
def m10 : MaskObject := { name := "M10", mask_file := "f10", mask := ⟨[1, 0], "aff"⟩ }

/-- The library state after that resolution. -/
def st10 : LibState := ⟨[(LibKey.k4 "M10" "aff" "shp" "1", .mask m10)], 1⟩

/-- The instance state after the first transform call. -/
def self10res : BrainMaskSelf :=
  { mask_image := .resolvedM m10, affine := some "aff", shape := some "shp",
    masker := some (⟨[1, 0], "aff"⟩, "aff", "shp") }

/-! ## Helper lemmas -/

/-- Inserting a key that is absent from a dict appends the binding. -/
theorem dictInsert_append {α β : Type} [BEq α] (d : List (α × β)) (k : α) (v : β)
    (h : ∀ p ∈ d, (p.1 == k) = false) : dictInsert d k v = d ++ [(k, v)] := by
  have hany : d.any (fun p => p.1 == k) = false := by
    rw [List.any_eq_false]
    intro p hp
    simp [h p hp]
  simp [dictInsert, hany]

/-- Looking up the key just inserted returns the inserted value. -/
theorem dictLookup_dictInsert_self {α β : Type} [BEq α] [LawfulBEq α]
    (d : List (α × β)) (k : α) (v : β) : dictLookup (dictInsert d k v) k = some v := by
  unfold dictInsert
  by_cases h : d.any (fun p => p.1 == k) = true
  · rw [if_pos h]
    induction d with
    | nil => simp at h
    | cons p ps ih =>
      by_cases hp : (p.1 == k) = true
      · simp [dictLookup, hp]
      · have hpf : (p.1 == k) = false := Bool.not_eq_true _ ▸ (by simpa using hp)
        have hps : ps.any (fun q => q.1 == k) = true := by
          rw [List.any_cons, hpf] at h
          simpa using h
        simpa [dictLookup, hpf] using ih hps
  · rw [if_neg h]
    rw [Bool.not_eq_true, List.any_eq_false] at h
    induction d with
    | nil => simp [dictLookup]
    | cons p ps ih =>
      have hp : ¬ (p.1 == k) = true := h p (by simp)
      have hps : ∀ q ∈ ps, ¬ (q.1 == k) = true := fun q hq => h q (by simp [hq])
      simp only [List.cons_append, dictLookup, if_neg hp]
      exact ih hps

/-- The extraction loop builds roi_allocation by enumeration: when the
selected labels are pairwise distinct and none of them is already bound,
the dict ends up mapping each label to its position in the selection. -/
theorem roi_allocation_loop_eq (ros : List RoiObject) :
    ∀ (d : List (String × Nat)) (i : Nat),
    (∀ p ∈ d, p.1 ∉ ros.map (fun r => r.label)) →
    (ros.map (fun r => r.label)).Nodup →
    roi_allocation_loop d i ros = d ++ (List.enumFrom i ros).map (fun p => (p.2.label, p.1)) := by
  induction ros with
  | nil => intro d i _ _; simp [roi_allocation_loop]
  | cons roi rest ih =>
    intro d i hd hn
    have h1 : ∀ p ∈ d, (p.1 == roi.label) = false := by
      intro p hp
      have := hd p hp
      simp only [List.map_cons, List.mem_cons, not_or] at this
      simp [this.1]
    have hn1 : roi.label ∉ rest.map (fun r => r.label) := by
      simp only [List.map_cons, List.nodup_cons] at hn
      exact hn.1
    have hn2 : (rest.map (fun r => r.label)).Nodup := by
      simp only [List.map_cons, List.nodup_cons] at hn
      exact hn.2
    rw [roi_allocation_loop, dictInsert_append d roi.label i h1]
    rw [ih (d ++ [(roi.label, i)]) (i + 1) ?_ hn2]
    · simp [List.enumFrom]
    · intro p hp
      rcases List.mem_append.mp hp with hp | hp
      · have := hd p hp
        simp only [List.map_cons, List.mem_cons, not_or] at this
        exact this.2
      · simp only [List.mem_singleton] at hp
        subst hp
        exact hn1

/-- Membership in insertUnique. -/
theorem mem_insertUnique (x y : Int) (l : List Int) :
    y ∈ insertUnique x l ↔ y = x ∨ y ∈ l := by
  induction l with
  | nil => simp [insertUnique]
  | cons z zs ih =>
    unfold insertUnique
    rcases lt_trichotomy x z with h1 | h1 | h1
    · rw [if_pos h1]
      simp [List.mem_cons]
    · subst h1
      rw [if_neg (lt_irrefl x), if_pos rfl]
      simp only [List.mem_cons]
      tauto
    · have hnlt : ¬ x < z := by omega
      have hne : ¬ x = z := by omega
      rw [if_neg hnlt, if_neg hne]
      simp only [List.mem_cons, ih]
      tauto

/-- insertUnique preserves strict sortedness. -/
theorem sorted_insertUnique (x : Int) (l : List Int) (h : l.Sorted (· < ·)) :
    (insertUnique x l).Sorted (· < ·) := by
  induction l with
  | nil => simp [insertUnique]
  | cons z zs ih =>
    rw [List.sorted_cons] at h
    obtain ⟨hz, hzs⟩ := h
    unfold insertUnique
    rcases lt_trichotomy x z with h1 | h1 | h1
    · rw [if_pos h1, List.sorted_cons]
      refine ⟨?_, List.sorted_cons.mpr ⟨hz, hzs⟩⟩
      intro b hb
      rcases List.mem_cons.mp hb with hb | hb
      · subst hb; exact h1
      · exact lt_trans h1 (hz b hb)
    · subst h1
      rw [if_neg (lt_irrefl x), if_pos rfl, List.sorted_cons]
      exact ⟨hz, hzs⟩
    · have hnlt : ¬ x < z := by omega
      have hne : ¬ x = z := by omega
      rw [if_neg hnlt, if_neg hne, List.sorted_cons]
      refine ⟨?_, ih hzs⟩
      intro b hb
      rcases (mem_insertUnique x b zs).mp hb with hb | hb
      · subst hb; exact h1
      · exact hz b hb

/-- npUnique returns a strictly ascending list. -/
theorem sorted_npUnique (l : List Int) : (npUnique l).Sorted (· < ·) := by
  induction l with
  | nil => simp [npUnique]
  | cons x xs ih =>
    unfold npUnique at ih ⊢
    simpa [List.foldr] using sorted_insertUnique x _ ih

/-- npUnique keeps exactly the values of the list. -/
theorem mem_npUnique (l : List Int) (x : Int) : x ∈ npUnique l ↔ x ∈ l := by
  induction l with
  | nil => simp [npUnique]
  | cons y ys ih =>
    unfold npUnique at ih ⊢
    simp [List.foldr, mem_insertUnique, ih]

/-- Every atlas object build_atlas_object returns carries as indices the
npUnique of its (thresholded) map. -/
theorem build_atlas_indices (name : String) (src : AtlasSource) (resampled : Image)
    (ta ts : Option String) (mt : Option Int) (labelsData : Option (List (Int × String)))
    (obj : AtlasObject)
    (h : build_atlas_object name src resampled ta ts mt labelsData = .ok obj) :
    obj.indices = npUnique obj.map := by
  cases labelsData with
  | none =>
    simp only [build_atlas_object] at h
    rw [Except.ok.injEq] at h
    subst h
    rfl
  | some pairs =>
    simp only [build_atlas_object] at h
    split at h <;> split at h
    all_goals
      first
        | (rw [Except.ok.injEq] at h; subst h; rfl)
        | exact Except.noConfusion h

/-- A successful _add_atlas_to_library stores, under the 4-tuple key, an
atlas object whose indices are the npUnique of its map, and counts one
build. -/
theorem add_atlas_ok_lookup (B : Backend) (st : LibState) (name : String)
    (ta ts : Option String) (mt : Option Int) (st1 : LibState)
    (h : add_atlas_to_library B st name ta ts mt = .ok st1) :
    ∃ obj : AtlasObject,
      dictLookup st1.library (LibKey.k4 name (strOpt ta) (strOpt ts) (strOptInt mt))
        = some (.atlas obj)
      ∧ obj.indices = npUnique obj.map
      ∧ st1.builds = st.builds + 1 := by
  rcases hsrc : resolve_atlas_source B name with e | src
  · simp [add_atlas_to_library, hsrc] at h
  rcases hres : lib_resample B (B.load_img src.path) ta ts with e | resampled
  · simp [add_atlas_to_library, hsrc, hres] at h
  rcases hbuild : build_atlas_object name src resampled ta ts mt
      (if B.isfile src.labels_file then some (B.read_labels src.labels_file) else none)
      with e | obj0
  · simp [add_atlas_to_library, hsrc, hres, hbuild] at h
  · simp only [add_atlas_to_library, hsrc, hres, hbuild] at h
    rw [Except.ok.injEq] at h
    subst h
    refine ⟨{ obj0 with roi_list := finalize_rois obj0.map obj0.roi_list },
            dictLookup_dictInsert_self _ _ _, ?_, rfl⟩
    simpa using build_atlas_indices name src resampled ta ts mt _ obj0 hbuild

/-- Claim C9: for every atlas name and fixed target affine, shape and
threshold, when the key is not yet cached, get_atlas builds and stores the
atlas object under that key (one completed build), and the repeated call
with the same arguments returns exactly the stored entry with the library
left untouched (the identity-of-the-cached-object property: the returned
entry is the one the first call stored, no rebuild happens). -/
theorem C9_theorem (B : Backend) (st : LibState) (name : String) (ta ts : Option String)
    (mt : Option Int) (e : LibEntry) (st1 : LibState)
    (hmiss : dictLookup st.library (LibKey.k4 name (strOpt ta) (strOpt ts) (strOptInt mt)) = none)
    (h : get_atlas B st name ta ts mt = (.ok e, st1)) :
    st1.builds = st.builds + 1 ∧
    dictLookup st1.library (LibKey.k4 name (strOpt ta) (strOpt ts) (strOptInt mt)) = some e ∧
    get_atlas B st1 name ta ts mt = (.ok e, st1) := by
  rcases ha : add_atlas_to_library B st name ta ts mt with e2 | st2
  · simp [get_atlas, hmiss, ha] at h
  · rcases hl : dictLookup st2.library
        (LibKey.k4 name (strOpt ta) (strOpt ts) (strOptInt mt)) with _ | e1
    · simp [get_atlas, hmiss, ha, hl] at h
    · simp only [get_atlas, hmiss, ha, hl] at h
      rw [Prod.mk.injEq] at h
      obtain ⟨h1, h2⟩ := h
      rw [Except.ok.injEq] at h1
      subst h1
      subst h2
      obtain ⟨obj, _, _, hb⟩ := add_atlas_ok_lookup B st name ta ts mt st2 ha
      exact ⟨hb, hl, by simp [get_atlas, hl]⟩

/-- Witness for C9 at a concrete backend: the first call on the empty
library builds atlas A9, the second returns the stored entry unchanged. -/
theorem C9_witness :
    st9.builds = 0 + 1 ∧
    dictLookup st9.library (LibKey.k4 "A9" "None" "None" "None") = some (.atlas atlas9) ∧
    get_atlas B9 st9 "A9" none none none = (.ok (.atlas atlas9), st9) :=
  C9_theorem B9 {} "A9" none none none (.atlas atlas9) st9 (by decide) (by decide)

/-- Claim C7: every atlas successfully added to the library stores an
AtlasObject whose indices list is strictly ascending and holds exactly the
values occurring in its resampled (and thresholded) map volume. -/
theorem C7_theorem (B : Backend) (st : LibState) (name : String) (ta ts : Option String)
    (mt : Option Int) (st1 : LibState) (a : AtlasObject) (x : Int)
    (hadd : add_atlas_to_library B st name ta ts mt = .ok st1)
    (hlook : dictLookup st1.library (LibKey.k4 name (strOpt ta) (strOpt ts) (strOptInt mt))
      = some (.atlas a)) :
    List.Sorted (· < ·) a.indices ∧ (x ∈ a.indices ↔ x ∈ a.map) := by
  obtain ⟨obj, hl, hi, _⟩ := add_atlas_ok_lookup B st name ta ts mt st1 hadd
  rw [hl] at hlook
  obtain rfl : obj = a := by simpa using hlook
  rw [hi]
  exact ⟨sorted_npUnique _, mem_npUnique _ x⟩

/-- Witness for C7 at a concrete backend: adding atlas A7 yields indices
that are ascending and exactly the values of the map. -/
theorem C7_witness :
    List.Sorted (· < ·) atlas7.indices ∧ ((2 : Int) ∈ atlas7.indices ↔ (2 : Int) ∈ atlas7.map) :=
  C7_theorem B7 {} "A7" none none none st7 atlas7 2 (by decide) (by decide)

/-- Claim C5: whenever the mask built by get_mask has zero positive voxels
after thresholding and resampling, get_mask raises a ValueError naming the
mask, and the library state is exactly the one before the call (the empty
mask is never stored). -/
theorem C5_theorem (B : Backend) (st : LibState) (mask_name : String) (ta ts : Option String)
    (mt : Int) (f : String) (m : Image)
    (hres : resolve_mask_file B mask_name = .ok f)
    (hbuild : build_mask_img B f ta ts mt = .ok m)
    (hempty : m.data.all (fun v => v == 0) = true)
    (hprobe : dictLookup st.library (LibKey.k3 mask_name (strOpt ta) (strOpt ts)) = none) :
    get_mask B st mask_name ta ts mt =
      (.error ("No voxels in mask after resampling (" ++ mask_name ++ ")."), st) := by
  simp [get_mask, add_mask_to_library, hprobe, hres, hbuild, hempty]

/-- Witness for C5: thresholding the mask M5 (values 1 and 2) at 5 empties
it; get_mask raises the naming ValueError and leaves the empty library
unchanged. -/
theorem C5_witness :
    get_mask B5 {} "M5" none none 5 =
      (.error ("No voxels in mask after resampling (" ++ "M5" ++ ")."), ({} : LibState)) :=
  C5_theorem B5 {} "M5" none none 5 "f5" ⟨[0, 0], "aff"⟩
    (by decide) (by decide) (by decide) (by decide)

/-- Claim C6: for every collection_mode other than list and concat,
BrainAtlas.transform raises the ValueError right after input conversion:
before the atlas is resolved (the library is untouched) and before any ROI
data is extracted (the instance attributes are untouched), with no fallback
to concat. -/
theorem C6_theorem (B : Backend) (st : LibState) (self : BrainAtlasSelf) (X : NiftiInput)
    (s : Series) (n : Nat)
    (hconv : NiftiConverter_transform X = .ok (s, n))
    (h1 : self.collection_mode ≠ "list") (h2 : self.collection_mode ≠ "concat") :
    BrainAtlas_transform B st self X = ⟨.error collection_mode_msg, st, self⟩ := by
  have hor : ¬ (self.collection_mode = "list" ∨ self.collection_mode = "concat") :=
    not_or.mpr ⟨h1, h2⟩
  simp [BrainAtlas_transform, hconv, hor]

/-- Witness for C6: collection_mode set to array makes transform raise the
ValueError with library and instance untouched. -/
theorem C6_witness :
    BrainAtlas_transform baseBackend {} self6 X6 = ⟨.error collection_mode_msg, {}, self6⟩ :=
  C6_theorem baseBackend {} self6 X6 ⟨.three [1], "a", "s"⟩ 1 (by decide) (by decide) (by decide)

/-- Claim C8: whenever both a target affine and a target shape are supplied
and the orientation codes of the nearest-neighbour resampled image differ
from those of the target affine, the shared resampling step raises a
ValueError, and through it both atlas resolution (_add_atlas_to_library,
called by get_atlas on a cache miss) and mask resolution
(_add_mask_to_library, called by get_mask) fail with that ValueError. -/
theorem C8_theorem (B : Backend) (ta ts : String) (img : Image) (st st2 : LibState)
    (aname : String) (amt : Option Int) (src : AtlasSource)
    (mname : String) (mmt : Int) (f : String)
    (h1 : B.axcodes (B.resample_img img ta ts).affine ≠ B.axcodes ta)
    (hares : resolve_atlas_source B aname = .ok src)
    (h2 : B.axcodes (B.resample_img (B.load_img src.path) ta ts).affine ≠ B.axcodes ta)
    (hmres : resolve_mask_file B mname = .ok f)
    (h3 : B.axcodes (B.resample_img (mathImgGt (B.load_img f) mmt) ta ts).affine ≠ B.axcodes ta) :
    lib_resample B img (some ta) (some ts) =
      .error (orientation_mismatch_msg
        (B.axcodes (B.resample_img img ta ts).affine) (B.axcodes ta)) ∧
    add_atlas_to_library B st aname (some ta) (some ts) amt =
      .error (orientation_mismatch_msg
        (B.axcodes (B.resample_img (B.load_img src.path) ta ts).affine) (B.axcodes ta)) ∧
    add_mask_to_library B st2 mname (some ta) (some ts) mmt =
      .error (orientation_mismatch_msg
        (B.axcodes (B.resample_img (mathImgGt (B.load_img f) mmt) ta ts).affine) (B.axcodes ta)) := by
  refine ⟨?_, ?_, ?_⟩
  · simp [lib_resample, h1]
  · have hr : lib_resample B (B.load_img src.path) (some ta) (some ts) =
        .error (orientation_mismatch_msg
          (B.axcodes (B.resample_img (B.load_img src.path) ta ts).affine) (B.axcodes ta)) := by
      simp [lib_resample, h2]
    simp [add_atlas_to_library, hares, hr]
  · have hr : lib_resample B (mathImgGt (B.load_img f) mmt) (some ta) (some ts) =
        .error (orientation_mismatch_msg
          (B.axcodes (B.resample_img (mathImgGt (B.load_img f) mmt) ta ts).affine) (B.axcodes ta)) := by
      simp [lib_resample, h3]
    simp [add_mask_to_library, build_mask_img, hmres, hr]

/-- Witness for C8: the backend volume sits in LAS orientation while the
target affine is RAS; the resampling step, atlas resolution and mask
resolution all raise the orientation ValueError. -/
theorem C8_witness :
    lib_resample B8 ⟨[1], "LAS"⟩ (some "RAS") (some "shp") =
      .error (orientation_mismatch_msg
        (B8.axcodes (B8.resample_img ⟨[1], "LAS"⟩ "RAS" "shp").affine) (B8.axcodes "RAS")) ∧
    add_atlas_to_library B8 {} "A8" (some "RAS") (some "shp") none =
      .error (orientation_mismatch_msg
        (B8.axcodes (B8.resample_img (B8.load_img "p8") "RAS" "shp").affine) (B8.axcodes "RAS")) ∧
    add_mask_to_library B8 {} "M8" (some "RAS") (some "shp") 0 =
      .error (orientation_mismatch_msg
        (B8.axcodes (B8.resample_img (mathImgGt (B8.load_img "f8") 0) "RAS" "shp").affine)
        (B8.axcodes "RAS")) :=
  C8_theorem B8 "RAS" "shp" ⟨[1], "LAS"⟩ {} {} "A8" none ⟨"p8", "lf8"⟩ "M8" 0 "f8"
    (by decide) (by decide) (by decide) (by decide) (by decide)

/-- Claim C1 (amended): for every atlas and requested list of ROI label
strings whose first element is not all, the selection contains exactly the
ROIs whose labels are in the requested list, but in the order of the atlas
roi_list (ascending index order), independent of the requested order; the
same holds for a list of integer indices; and when the selected labels are
pairwise distinct, roi_allocation maps each selected label to its position
in that atlas order. -/
theorem C1_theorem (atlas : AtlasObject) (l : List String) (li : List Int) (bg : Int)
    (hne : l ≠ [])
    (hall : pyLower (l.headD "") ≠ "all")
    (hnodup : ((atlas.roi_list.filter (fun r => l.contains r.label)).map
        (fun r => r.label)).Nodup) :
    get_rois atlas (.strList l) bg = atlas.roi_list.filter (fun r => l.contains r.label) ∧
    get_rois atlas (.intList li) bg = atlas.roi_list.filter (fun r => li.contains r.index) ∧
    roi_allocation_loop [] 0 (get_rois atlas (.strList l) bg)
      = (List.enumFrom 0 (atlas.roi_list.filter (fun r => l.contains r.label))).map
          (fun p => (p.2.label, p.1)) := by
  have hsel : get_rois atlas (.strList l) bg
      = atlas.roi_list.filter (fun r => l.contains r.label) := by
    simp only [get_rois]
    rw [if_neg hall]
    rfl
  refine ⟨hsel, by simp [get_rois, find_rois_by_index], ?_⟩
  rw [hsel]
  exact roi_allocation_loop_eq _ [] 0 (by simp) hnodup

/-- Counterexample to Claim C1 as stated: requesting the labels B then A
from an atlas whose roi_list holds A before B does not yield the ROIs in
the requested order. -/
theorem C1_counterexample :
    (get_rois atlasC1 (.strList ["B", "A"]) 0).map (fun r => r.label) ≠ ["B", "A"] := by
  decide

/-- Witness for C1 at the concrete two-ROI atlas: the request [B, A] (and
the index request [2, 1]) selects in atlas order, and roi_allocation
enumerates that atlas-order selection. -/
theorem C1_witness :
    get_rois atlasC1 (.strList ["B", "A"]) 0
      = atlasC1.roi_list.filter (fun r => (["B", "A"]).contains r.label) ∧
    get_rois atlasC1 (.intList [2, 1]) 0
      = atlasC1.roi_list.filter (fun r => ([2, 1] : List Int).contains r.index) ∧
    roi_allocation_loop [] 0 (get_rois atlasC1 (.strList ["B", "A"]) 0)
      = (List.enumFrom 0 (atlasC1.roi_list.filter (fun r => (["B", "A"]).contains r.label))).map
          (fun p => (p.2.label, p.1)) :=
  C1_theorem atlasC1 ["B", "A"] [2, 1] 0 (by decide) (by decide) (by decide)

/-- Claim C2 (code bug, evaluated): transforming one subject in the default
vec/concat configuration leaves self.mask_indices as the raw Python list of
per-ROI index arrays (never concatenated), so inverse_transform applied to
the transform output raises the numpy broadcast ValueError instead of
reconstructing the volume; with mask_indices repaired to the concatenated
vector the source builds for several subjects, the same inverse_transform
reconstructs the original voxels inside every selected ROI mask and zero
outside. -/
theorem C2_theorem :
    run2.res = .ok (.concatOne [.vec [10, 20], .vec [30]]) ∧
    run2.self.mask_indices = some (.pylistArrs [[0], [1]]) ∧
    (BrainAtlas_inverse_transform B2 run2.lib run2.self (.mat [[10, 20], [30]])).1
      = .error "could not broadcast input array" ∧
    (BrainAtlas_inverse_transform B2 run2.lib
        { run2.self with mask_indices := some (.arr [0, 0, 1]) } (.vec [10, 20, 30])).1
      = .ok ⟨[10, 20, 30, 0], "aff"⟩ := by
  decide

/-- Claim C3 (code bug, evaluated): get_mask stores entries under 4-tuple
keys but probes membership with a 3-tuple key, which therefore never hits:
after the first call built the mask (one completed build) the 3-tuple probe
still misses even though the 4-tuple entry is present, and the identical
second call rebuilds (two completed builds) instead of returning the cached
entry. -/
theorem C3_theorem :
    c3_call1.2.builds = 1 ∧
    (dictLookup c3_call1.2.library (LibKey.k4 "M" "None" "None" "0")).isSome = true ∧
    dictLookup c3_call1.2.library (LibKey.k3 "M" "None" "None") = none ∧
    c3_call2.2.builds = 2 := by
  decide

/-- Claim C4 (code bug, evaluated): with a labels file covering index 1
only while the map holds 0, 1 and 2 (background injected for 0, leaving 2
uncovered), get_atlas raises AttributeError while formatting the mismatch
log message (the source reads self.indices on the AtlasLibrary instance,
which has no such attribute) instead of logging the discrepancy and falling
back to stringified labels. -/
theorem C4_theorem :
    get_atlas B4 {} "A" none none none = (.error attribute_error_msg, ({} : LibState)) := by
  decide

/-- A successful bm_format leaves every attribute except affine and shape
untouched and guarantees both are set afterwards. -/
theorem bm_format_ok (self : BrainMaskSelf) (X : NiftiInput) (s1 : BrainMaskSelf)
    (h : bm_format self X = .ok s1) :
    s1.mask_image = self.mask_image ∧ s1.masker = self.masker ∧
    s1.extract_mode = self.extract_mode ∧ s1.mask_threshold = self.mask_threshold ∧
    s1.affine.isSome = true ∧ s1.shape.isSome = true := by
  unfold bm_format at h
  split at h
  · rcases hfi : get_format_info_from_first_image X with e | p
    · simp only [hfi] at h
      exact Except.noConfusion h
    · obtain ⟨a, b⟩ := p
      simp only [hfi] at h
      rw [Except.ok.injEq] at h
      subst h
      simp
  · rw [Except.ok.injEq] at h
    subst h
    rename_i hc
    push_neg at hc
    exact ⟨rfl, rfl, rfl, rfl, Option.ne_none_iff_isSome.mp hc.1,
           Option.ne_none_iff_isSome.mp hc.2⟩

/-- A successful bm_resolve on a string mask_image preserves every other
attribute and leaves a resolved library entry in mask_image. -/
theorem bm_resolve_name_ok (B : Backend) (st : LibState) (sA : BrainMaskSelf) (nm : String)
    (sB : BrainMaskSelf) (stA : LibState)
    (hmi : sA.mask_image = .name nm)
    (h : bm_resolve B st sA = (.ok sB, stA)) :
    sB.affine = sA.affine ∧ sB.shape = sA.shape ∧ sB.masker = sA.masker ∧
    sB.extract_mode = sA.extract_mode ∧ sB.mask_threshold = sA.mask_threshold ∧
    ((∃ m : MaskObject, sB.mask_image = .resolvedM m) ∨
     (∃ a : AtlasObject, sB.mask_image = .resolvedA a)) := by
  unfold bm_resolve at h
  rcases hg : get_mask B st nm sA.affine sA.shape sA.mask_threshold with ⟨rg, stg⟩
  rcases rg with e | entry
  · simp only [hmi, hg] at h
    simp at h
  · cases entry with
    | mask m =>
      simp only [hmi, hg] at h
      rw [Prod.mk.injEq] at h
      obtain ⟨h1, h2⟩ := h
      rw [Except.ok.injEq] at h1
      subst h1
      exact ⟨rfl, rfl, rfl, rfl, rfl, Or.inl ⟨m, rfl⟩⟩
    | atlas a =>
      simp only [hmi, hg] at h
      rw [Prod.mk.injEq] at h
      obtain ⟨h1, h2⟩ := h
      rw [Except.ok.injEq] at h1
      subst h1
      exact ⟨rfl, rfl, rfl, rfl, rfl, Or.inr ⟨a, rfl⟩⟩

/-- A successful bm_extract implies the resolved mask is not empty, and the
returned instance is the input with the masker freshly set. -/
theorem bm_extract_ok (B : Backend) (sB : BrainMaskSelf) (X : NiftiInput)
    (out : BrainMaskOut) (sC : BrainMaskSelf)
    (h : bm_extract B sB X = (.ok out, sC)) :
    mask_image_is_empty sB.mask_image = .ok false ∧
    sC = { sB with masker := some (mask_image_img sB.mask_image, strOpt sB.affine, strOpt sB.shape) } := by
  unfold bm_extract at h
  rcases he : mask_image_is_empty sB.mask_image with e | b
  · simp only [he] at h
    simp at h
  · cases b
    · refine ⟨rfl, ?_⟩
      simp only [he] at h
      rcases hft : B.masker_fit_transform (mask_image_img sB.mask_image)
          (strOpt sB.affine) (strOpt sB.shape) X with _ | sr
      · simp only [hft] at h
        simp at h
      · simp only [hft] at h
        split_ifs at h <;>
          (rw [Prod.mk.injEq] at h; exact h.2.symm)
    · simp only [he] at h
      simp at h

/-- On an instance whose affine and shape are set, whose mask_image is a
resolved nonempty MaskObject and whose masker matches those attributes, a
further transform call leaves both the library and the instance exactly as
they are, whatever the input. -/
theorem bm_fixpoint (B : Backend) (st : LibState) (s : BrainMaskSelf) (m : MaskObject)
    (hmi : s.mask_image = .resolvedM m) (hem : m.is_empty = false)
    (ha : s.affine.isSome = true) (hs : s.shape.isSome = true)
    (hmk : s.masker = some (mask_image_img s.mask_image, strOpt s.affine, strOpt s.shape)) :
    ∀ X' : NiftiInput,
      (BrainMask_transform B st s X').lib = st ∧ (BrainMask_transform B st s X').self = s := by
  intro X'
  have hfmt : bm_format s X' = .ok s := by
    unfold bm_format
    rw [if_neg]
    push_neg
    exact ⟨Option.ne_none_iff_isSome.mpr ha, Option.ne_none_iff_isSome.mpr hs⟩
  have hres : bm_resolve B st s = (.ok s, st) := by
    unfold bm_resolve
    rw [hmi]
  have hself1 : ({ s with masker := some (mask_image_img s.mask_image, strOpt s.affine, strOpt s.shape) } : BrainMaskSelf) = s := by
    obtain ⟨mi, a, sh, mk0, em, mt⟩ := s
    simp only at hmk ⊢
    rw [hmk]
  have hemp : mask_image_is_empty s.mask_image = .ok false := by
    rw [hmi, mask_image_is_empty, hem]
  simp only [BrainMask_transform, hfmt, hres]
  unfold bm_extract
  simp only [hemp]
  rcases hft : B.masker_fit_transform (mask_image_img s.mask_image)
      (strOpt s.affine) (strOpt s.shape) X' with _ | sr
  · simp [hft, hself1]
  · simp only [hft]
    split_ifs <;> simp [hself1]

/-- Claim C10: a BrainMask.transform call on an instance whose mask_image
is a string name permanently overwrites mask_image with the resolved
MaskObject and caches the affine and shape inferred from the first input;
every subsequent transform call on the same instance skips name resolution
entirely (the library is untouched) and reuses the resolved mask and the
cached affine and shape unchanged, even when the later input has a
different affine or shape. -/
theorem C10_theorem (B : Backend) (st : LibState) (self : BrainMaskSelf) (X X' : NiftiInput)
    (nm : String) (out : BrainMaskOut) (st1 : LibState) (self1 : BrainMaskSelf)
    (hname : self.mask_image = .name nm)
    (h : BrainMask_transform B st self X = ⟨.ok out, st1, self1⟩) :
    isResolvedMask self1.mask_image = true ∧
    self1.affine.isSome = true ∧ self1.shape.isSome = true ∧
    (BrainMask_transform B st1 self1 X').lib = st1 ∧
    (BrainMask_transform B st1 self1 X').self = self1 := by
  rcases hfmt : bm_format self X with e | sA
  · simp [BrainMask_transform, hfmt] at h
  obtain ⟨hA1, hA2, hA3, hA4, hA5, hA6⟩ := bm_format_ok self X sA hfmt
  rcases hres : bm_resolve B st sA with ⟨r2, stA⟩
  rcases r2 with e | sB
  · simp [BrainMask_transform, hfmt, hres] at h
  obtain ⟨hB1, hB2, hB3, hB4, hB5, hB6⟩ :=
    bm_resolve_name_ok B st sA nm sB stA (hA1.trans hname) hres
  rcases hext : bm_extract B sB X with ⟨r3, sC⟩
  have h' : r3 = .ok out ∧ stA = st1 ∧ sC = self1 := by
    simp only [BrainMask_transform, hfmt, hres, hext] at h
    injection h with h1 h2 h3
    exact ⟨h1, h2, h3⟩
  obtain ⟨h3, hst, hsc⟩ := h'
  subst h3
  subst hst
  subst hsc
  obtain ⟨hemp, hC⟩ := bm_extract_ok B sB X out sC hext
  have hm : ∃ m : MaskObject, sB.mask_image = .resolvedM m ∧ m.is_empty = false := by
    rcases hB6 with ⟨m, hm⟩ | ⟨a, hm⟩
    · refine ⟨m, hm, ?_⟩
      rw [hm] at hemp
      simp only [mask_image_is_empty] at hemp
      rw [Except.ok.injEq] at hemp
      exact hemp
    · rw [hm] at hemp
      simp only [mask_image_is_empty] at hemp
      exact Except.noConfusion hemp
  obtain ⟨m, hmB, hmem⟩ := hm
  have hCmi : sC.mask_image = .resolvedM m := by rw [hC]; simpa using hmB
  have hCa : sC.affine = sA.affine := by rw [hC]; simpa using hB1
  have hCs : sC.shape = sA.shape := by rw [hC]; simpa using hB2
  have hCmk : sC.masker = some (mask_image_img sC.mask_image, strOpt sC.affine, strOpt sC.shape) := by
    rw [hC]
  refine ⟨by rw [hCmi]; rfl, by rw [hCa]; exact hA5, by rw [hCs]; exact hA6, ?_, ?_⟩
  · exact (bm_fixpoint B _ _ m hCmi hmem (by rw [hCa]; exact hA5)
      (by rw [hCs]; exact hA6) hCmk X').1
  · exact (bm_fixpoint B _ _ m hCmi hmem (by rw [hCa]; exact hA5)
      (by rw [hCs]; exact hA6) hCmk X').2

/-- Witness for C10 at the concrete backend: the first call resolves mask
M10 and caches the affine and shape; a second call with an input of a
different affine and shape leaves the library and the instance unchanged. -/
theorem C10_witness :
    isResolvedMask self10res.mask_image = true ∧
    self10res.affine.isSome = true ∧ self10res.shape.isSome = true ∧
    (BrainMask_transform B10 st10 self10res X10b).lib = st10 ∧
    (BrainMask_transform B10 st10 self10res X10b).self = self10res :=
  C10_theorem B10 {} self10 X10 X10b "M10" (.vec [[5]]) st10 self10res rfl (by decide)

end PhotonaiNeuro
